import Mathlib

/-!
Verification of the SANKHYA aggregation-and-scoring pipeline
(src/backend/generate_data.py, src/backend/data_processor.py,
src/backend/ai_forecaster.py), shallowly embedded over exact rationals.

Numeric conventions of the embedding:
* Python float arithmetic is idealised as arithmetic in the rationals.
* round(x, n) is half-to-even rounding (roundHE, pyRound2, pyRound1).
* int(x) truncates toward zero (pyInt).
* The one place the source divides 0/0 (adult_percent in
  process_demographic_data) is tracked with Option: none stands for the
  IEEE NaN that pandas produces there, and the comparison semantics of
  NaN (every < is False) is reproduced where that value is consumed.
-/

/-- Half-to-even rounding to an integer, the behaviour of round() in
Python and of pandas .round applied to an exactly representable value. -/
def roundHE (q : ℚ) : ℤ :=
  if q - ⌊q⌋ < 1/2 then ⌊q⌋
  else if 1/2 < q - ⌊q⌋ then ⌊q⌋ + 1
  else if 2 ∣ ⌊q⌋ then ⌊q⌋ else ⌊q⌋ + 1

/-- round(x, 2). -/
def pyRound2 (q : ℚ) : ℚ := ((roundHE (q * 100) : ℤ) : ℚ) / 100

/-- round(x, 1). -/
def pyRound1 (q : ℚ) : ℚ := ((roundHE (q * 10) : ℤ) : ℚ) / 10

/-- int(x): truncation toward zero. -/
def pyInt (q : ℚ) : ℤ := if q < 0 then -⌊-q⌋ else ⌊q⌋

theorem roundHE_lower (q : ℚ) : ⌊q⌋ ≤ roundHE q := by
  unfold roundHE
  split_ifs <;> omega

theorem roundHE_upper (q : ℚ) : roundHE q ≤ ⌈q⌉ := by
  have hfc : ⌊q⌋ ≤ ⌈q⌉ := Int.floor_le_ceil q
  have hlt : (1:ℚ)/2 ≤ q - ⌊q⌋ → ⌊q⌋ + 1 ≤ ⌈q⌉ := by
    intro h
    have : ((⌊q⌋ : ℚ)) < q := by
      have := Int.floor_le q
      nlinarith
    exact Int.add_one_le_iff.mpr (Int.lt_ceil.mpr this)
  unfold roundHE
  split_ifs with h1 h2 h3
  · exact hfc
  · exact hlt (le_of_lt h2)
  · exact hfc
  · exact hlt (le_of_not_lt h1)

theorem roundHE_nonneg {q : ℚ} (h : 0 ≤ q) : 0 ≤ roundHE q := by
  have : (0:ℤ) ≤ ⌊q⌋ := Int.floor_nonneg.mpr h
  exact le_trans this (roundHE_lower q)

theorem pyRound2_bounds {q : ℚ} (h0 : 0 ≤ q) (h1 : q ≤ 10) :
    0 ≤ pyRound2 q ∧ pyRound2 q ≤ 10 := by
  have hlo : (0:ℤ) ≤ roundHE (q * 100) := roundHE_nonneg (by positivity)
  have hhi : roundHE (q * 100) ≤ 1000 := by
    have hceil : ⌈q * 100⌉ ≤ (1000:ℤ) := Int.ceil_le.mpr (by push_cast; linarith)
    exact le_trans (roundHE_upper _) hceil
  constructor
  · unfold pyRound2
    positivity
  · unfold pyRound2
    rw [div_le_iff (by norm_num : (0:ℚ) < 100)]
    exact_mod_cast hhi

theorem pyInt_nonneg {q : ℚ} (h : 0 ≤ q) : 0 ≤ pyInt q := by
  unfold pyInt
  rw [if_neg (not_lt.mpr h)]
  exact Int.floor_nonneg.mpr h

theorem pyInt_mono {a b : ℚ} (ha : 0 ≤ a) (h : a ≤ b) : pyInt a ≤ pyInt b := by
  unfold pyInt
  rw [if_neg (not_lt.mpr ha), if_neg (not_lt.mpr (le_trans ha h))]
  exact Int.floor_le_floor h

/-! ## generate_data.py: the DSI formula and status thresholds -/

/-- Embeds calculate_dsi of src/backend/generate_data.py.  Every call site
uses the default keyword values seasonal=0.1 and repeat_rate=0.05, which are
inlined here.  The source guards the capacity with "if capacity <= 0:
capacity = 1", scales by 1000, clamps into [0, 10] and rounds to two
decimals. -/
def calculate_dsi (volume adult_percent capacity : ℚ) : ℚ :=
  let Wa := adult_percent / 100
  let S := volume * (1/10)
  let Ws : ℚ := 3/2
  let R := volume * (1/20)
  let cap := if capacity ≤ 0 then 1 else capacity
  let dsi := (volume * Wa + S * Ws) / cap + R
  pyRound2 (min (max (dsi / 1000) 0) 10)

/-- Embeds get_dsi_status of src/backend/generate_data.py. -/
def get_dsi_status (dsi : ℚ) : String :=
  if dsi < 33/10 then "low" else if dsi < 66/10 then "medium" else "critical"

/-! ## data_processor.py: SankhyaDataProcessor.calculate_dsi -/

/-- One row of the demographic table (the columns calculate_dsi reads). -/
structure DemoRow where
  state : String
  district : String
  demo_age_5_17 : ℕ
  demo_age_17_plus : ℕ
deriving DecidableEq

/-- The row filter of SankhyaDataProcessor.calculate_dsi: by district, and
also by state when one is given. -/
def dpFilter (df : List DemoRow) (district : String) (state : Option String) : List DemoRow :=
  match state with
  | some s => df.filter (fun r => decide (r.district = district) && decide (r.state = s))
  | none => df.filter (fun r => decide (r.district = district))

/-- Return value of SankhyaDataProcessor.calculate_dsi.  The err
constructor carries only the dsi and status keys, mirroring the Python
dicts for the no_data and not_found cases, which omit the volume,
capacity and adult_percent keys present in the ok dict. -/
inductive DsiResult where
  | err (dsi : ℚ) (status : String)
  | ok (district : String) (state : Option String) (dsi : ℚ) (status : String)
      (volume : ℤ) (capacity : ℤ) (adult_percent : ℚ)
deriving DecidableEq

/-- V: the summed adult column of the filtered rows. -/
def dpVolume (rows : List DemoRow) : ℕ := (rows.map DemoRow.demo_age_17_plus).sum

/-- total_pop: sum of both age columns of the filtered rows. -/
def dpTotalPop (rows : List DemoRow) : ℕ :=
  (rows.map DemoRow.demo_age_5_17).sum + (rows.map DemoRow.demo_age_17_plus).sum

/-- Wa: percentage of adult updates, guarded against total_pop = 0. -/
def dpWa (V total : ℚ) : ℚ := if 0 < total then V / total * 100 else 0

/-- C = max(total_pop / 1000 * 10, 1). -/
def dpCapacity (total : ℚ) : ℚ := max (total / 1000 * 10) 1

/-- dsi before scaling: (V * Wa + S * Ws) / C + R with S = V * 0.1,
Ws = 1.5, R = V * 0.05. -/
def dpDsiRaw (V total : ℚ) : ℚ :=
  (V * dpWa V total + (V * (1/10)) * (3/2)) / dpCapacity total + V * (1/20)

/-- dsi = min(raw / 100, 10): the data_processor call site scales by 100
and clamps only from above. -/
def dpDsi (V total : ℚ) : ℚ := min (dpDsiRaw V total / 100) 10

/-- The inline status expression of SankhyaDataProcessor.calculate_dsi. -/
def dpStatus (dsi : ℚ) : String :=
  if dsi < 33/10 then "low" else if dsi < 66/10 then "medium" else "critical"

/-- Embeds SankhyaDataProcessor.calculate_dsi of
src/backend/data_processor.py.  df = none models a demographic table that
failed to load (self.demographic_df is None). -/
def dp_calculate_dsi (df : Option (List DemoRow)) (district : String)
    (state : Option String) : DsiResult :=
  match df with
  | none => .err 0 "no_data"
  | some df =>
    let rows := dpFilter df district state
    if rows.isEmpty then .err 0 "not_found"
    else
      let V : ℚ := (dpVolume rows : ℚ)
      let total : ℚ := (dpTotalPop rows : ℚ)
      .ok district state (pyRound2 (dpDsi V total)) (dpStatus (dpDsi V total))
        (pyInt V) (pyInt (dpCapacity total)) (pyRound1 (dpWa V total))

/-! ## generate_data.py: process_demographic_data per-district columns.
The adult_percent column divides by total_population without a zero
guard; when the summed total is 0 pandas produces NaN (tracked as none),
which every later comparison treats as False. -/

/-- adult_percent = round(sum17 / total * 100, 1); 0/0 gives NaN. -/
def genData_adult_percent (s5 s17 : ℕ) : Option ℚ :=
  if s5 + s17 = 0 then none
  else some (pyRound1 ((s17 : ℚ) / (((s5 + s17 : ℕ) : ℚ)) * 100))

/-- capacity = int(max(total / 5000, 1)): the clip(lower=1).astype(int)
of the source. -/
def genData_capacity (s5 s17 : ℕ) : ℤ := pyInt (max (((s5 + s17 : ℕ) : ℚ) / 5000) 1)

/-- calculate_dsi lifted to float-with-NaN in the adult_percent argument:
a NaN input contaminates every product and sum, survives the min/max
clamp (both comparisons are False, so Python min/max keep the first
argument) and round, so the result is NaN again. -/
def calculate_dsiNaN (volume : ℚ) (adult_percent : Option ℚ) (capacity : ℚ) : Option ℚ :=
  adult_percent.map (fun a => calculate_dsi volume a capacity)

/-- get_dsi_status on float-with-NaN: NaN < 3.3 and NaN < 6.6 are both
False in Python, so a NaN dsi falls through to the critical branch. -/
def get_dsi_statusNaN : Option ℚ → String
  | none => "critical"
  | some d => get_dsi_status d

/-- The adult_percent, dsi and status columns that
process_demographic_data computes for one (state, district) group whose
column sums are s5 and s17. -/
def genData_district_summary (s5 s17 : ℕ) : Option ℚ × Option ℚ × String :=
  let ap := genData_adult_percent s5 s17
  let dsi := calculate_dsiNaN (s17 : ℚ) ap ((genData_capacity s5 s17 : ℤ) : ℚ)
  (ap, dsi, get_dsi_statusNaN dsi)

/-! ## The DSI formula as the spec words it (for the refinement claim) -/

/-- Modelled from the wording of the spec, section 4.2: raw =
(volume * (adultPercent / 100) + (volume * seasonalFactor) * 1.5)
/ max(capacity, 1) + volume * repeatRate, with seasonalFactor = 0.1 and
repeatRate = 0.05. -/
def specRaw (volume adultPercent capacity : ℚ) : ℚ :=
  (volume * (adultPercent / 100) + (volume * (1/10)) * (3/2)) / max capacity 1
    + volume * (1/20)

/-- Modelled from the wording of the spec, section 4.2:
dsi = clamp(raw / scaleDivisor, 0, 10). -/
def specDsiFormula (scaleDivisor volume adultPercent capacity : ℚ) : ℚ :=
  min (max (specRaw volume adultPercent capacity / scaleDivisor) 0) 10

/-! ## Theorems for C1, C2, C3, C9 -/

theorem dpWa_nonneg (V T : ℕ) : 0 ≤ dpWa (V : ℚ) (T : ℚ) := by
  unfold dpWa
  split_ifs with h
  · positivity
  · exact le_refl 0

theorem dpDsiRaw_nonneg (V T : ℕ) : 0 ≤ dpDsiRaw (V : ℚ) (T : ℚ) := by
  have hWa := dpWa_nonneg V T
  have hcap : (0:ℚ) < dpCapacity (T : ℚ) :=
    lt_of_lt_of_le one_pos (le_max_right _ _)
  unfold dpDsiRaw
  have hnum : (0:ℚ) ≤ (V : ℚ) * dpWa (V : ℚ) (T : ℚ) + ((V : ℚ) * (1/10)) * (3/2) := by
    positivity
  positivity

/-- C1: for nonnegative volume, adult percent and capacity the DSI of
generate_data.calculate_dsi lies in [0, 10]; get_dsi_status classifies
with dsi < 3.3 low, 3.3 ≤ dsi < 6.6 medium, 6.6 ≤ dsi critical (medium at
the 3.3 boundary, critical at the 6.6 boundary); the data_processor call
site also yields a dsi in [0, 10] (its V and total_pop are sums of
natural-number counts) and classifies with the identical inline
expression. -/
theorem C1_dsi_range_and_status_thresholds (v a c d : ℚ)
    (hv : 0 ≤ v) (ha : 0 ≤ a) (hc : 0 ≤ c) (V T : ℕ) :
    (0 ≤ calculate_dsi v a c ∧ calculate_dsi v a c ≤ 10)
    ∧ (get_dsi_status d = "low" ↔ d < 33/10)
    ∧ (get_dsi_status d = "medium" ↔ 33/10 ≤ d ∧ d < 66/10)
    ∧ (get_dsi_status d = "critical" ↔ 66/10 ≤ d)
    ∧ (0 ≤ dpDsi (V : ℚ) (T : ℚ) ∧ dpDsi (V : ℚ) (T : ℚ) ≤ 10)
    ∧ dpStatus d = get_dsi_status d := by
  refine ⟨?_, ?_, ?_, ?_, ?_, rfl⟩
  · unfold calculate_dsi
    have h0 : (0:ℚ) ≤ min (max (((v * (a / 100) + v * (1/10) * (3/2)) / (if c ≤ 0 then 1 else c) + v * (1/20)) / 1000) 0) 10 :=
      le_min (le_max_right _ 0) (by norm_num)
    have h10 : min (max (((v * (a / 100) + v * (1/10) * (3/2)) / (if c ≤ 0 then 1 else c) + v * (1/20)) / 1000) 0) 10 ≤ 10 :=
      min_le_right _ _
    exact pyRound2_bounds h0 h10
  · unfold get_dsi_status
    split_ifs with h1 h2
    · simp [h1]
    · simp only [String.reduceEq, false_iff]
      exact fun hlt => absurd hlt h1
    · simp only [String.reduceEq, false_iff]
      exact fun hlt => absurd hlt h1
  · unfold get_dsi_status
    split_ifs with h1 h2
    · simp only [String.reduceEq, false_iff]
      intro hcon
      exact absurd h1 (not_lt.mpr hcon.1)
    · simp only [true_iff]
      exact ⟨not_lt.mp h1, h2⟩
    · simp only [String.reduceEq, false_iff]
      intro hcon
      exact absurd hcon.2 h2
  · unfold get_dsi_status
    split_ifs with h1 h2
    · simp only [String.reduceEq, false_iff]
      intro hcon
      exact absurd h1 (not_lt.mpr (by linarith))
    · simp only [String.reduceEq, false_iff]
      exact fun hcon => absurd h2 (not_lt.mpr hcon)
    · simp only [true_iff]
      exact not_lt.mp h2
  · constructor
    · unfold dpDsi
      refine le_min ?_ (by norm_num)
      have := dpDsiRaw_nonneg V T
      positivity
    · exact min_le_right _ _

/-- C1 witness: the theorem at volume 1000, adult percent 50, capacity
20, probe value d = 10, and data_processor sums V = 10, T = 20. -/
theorem C1_dsi_range_and_status_thresholds_witness :
    (0 ≤ calculate_dsi 1000 50 20 ∧ calculate_dsi 1000 50 20 ≤ 10)
    ∧ (get_dsi_status 10 = "low" ↔ (10:ℚ) < 33/10)
    ∧ (get_dsi_status 10 = "medium" ↔ (33/10 ≤ (10:ℚ) ∧ (10:ℚ) < 66/10))
    ∧ (get_dsi_status 10 = "critical" ↔ 66/10 ≤ (10:ℚ))
    ∧ (0 ≤ dpDsi ((10:ℕ) : ℚ) ((20:ℕ) : ℚ) ∧ dpDsi ((10:ℕ) : ℚ) ((20:ℕ) : ℚ) ≤ 10)
    ∧ dpStatus 10 = get_dsi_status 10 :=
  C1_dsi_range_and_status_thresholds 1000 50 20 10
    (by norm_num) (by norm_num) (by norm_num) 10 20

/-- C2 counterexample: fed the very same volume 1000, adult percent 50
and capacity 20 that data_processor.calculate_dsi derives for the
one-row table below, the generate_data call site returns 0.08 while the
data_processor call site returns 10 — the two call sites do not compute
clamp(raw / scaleDivisor, 0, 10) for one single fixed scaleDivisor. -/
theorem C2_counterexample_two_divisors :
    dp_calculate_dsi (some [⟨"S", "D", 1000, 1000⟩]) "D" (some "S")
      = DsiResult.ok "D" (some "S") 10 "critical" 1000 20 50
    ∧ calculate_dsi 1000 50 20 = 8/100
    ∧ (8/100 : ℚ) ≠ 10 := by
  refine ⟨?_, ?_, by norm_num⟩
  · norm_num [dp_calculate_dsi, dpFilter, dpVolume, dpTotalPop, dpWa, dpCapacity,
      dpDsiRaw, dpDsi, dpStatus, pyRound2, pyRound1, pyInt, roundHE,
      List.filter, min_def, max_def]
  · norm_num [calculate_dsi, pyRound2, roundHE, min_def, max_def]

/-- C2 (amended): generate_data.calculate_dsi equals the spec formula
with scaleDivisor 1000, rounded half-even to two decimals (its
capacity-nonpositive guard agrees with max(capacity, 1) whenever
capacity ≥ 1, which every caller guarantees); data_processor.calculate_dsi
instead equals the spec formula with scaleDivisor 100 applied to Wa taken
as the adult percentage itself (100 times the spec weight).  There is no
single fixed scaleDivisor shared by the call sites. -/
theorem C2_amended_scale_divisors (v a c : ℚ) (hc : 1 ≤ c) (V T : ℕ) :
    calculate_dsi v a c = pyRound2 (specDsiFormula 1000 v a c)
    ∧ dpDsi (V : ℚ) (T : ℚ)
      = specDsiFormula 100 (V : ℚ) (dpWa (V : ℚ) (T : ℚ) * 100) (dpCapacity (T : ℚ)) := by
  have hcpos : ¬ c ≤ 0 := not_le.mpr (lt_of_lt_of_le one_pos hc)
  have hmax : max c 1 = c := max_eq_left hc
  constructor
  · unfold calculate_dsi specDsiFormula specRaw
    rw [if_neg hcpos, hmax]
  · have hcap1 : max (dpCapacity (T : ℚ)) 1 = dpCapacity (T : ℚ) := by
      unfold dpCapacity
      exact max_eq_left (le_max_right _ _)
    have hraw : specRaw (V : ℚ) (dpWa (V : ℚ) (T : ℚ) * 100) (dpCapacity (T : ℚ))
        = dpDsiRaw (V : ℚ) (T : ℚ) := by
      unfold specRaw dpDsiRaw
      rw [hcap1]
      ring
    have hnn : (0:ℚ) ≤ dpDsiRaw (V : ℚ) (T : ℚ) / 100 := by
      have := dpDsiRaw_nonneg V T
      positivity
    unfold specDsiFormula dpDsi
    rw [hraw, max_eq_left hnn]

/-- C2 witness: the amended theorem at volume 1000, adult percent 50,
capacity 20, and data_processor sums V = 1000, T = 2000. -/
theorem C2_amended_scale_divisors_witness :
    calculate_dsi 1000 50 20 = pyRound2 (specDsiFormula 1000 1000 50 20)
    ∧ dpDsi ((1000:ℕ) : ℚ) ((2000:ℕ) : ℚ)
      = specDsiFormula 100 ((1000:ℕ) : ℚ)
          (dpWa ((1000:ℕ) : ℚ) ((2000:ℕ) : ℚ) * 100) (dpCapacity ((2000:ℕ) : ℚ)) :=
  C2_amended_scale_divisors 1000 50 20 (by norm_num) 1000 2000

/-- C3: for a district present in the table whose summed total population
is 0, SankhyaDataProcessor.calculate_dsi returns adult_percent 0, dsi 0
and status low without dividing by zero — but the same edge case in
generate_data.process_demographic_data divides 0/0, producing a NaN
adult_percent and NaN dsi, and get_dsi_status sends the NaN to
"critical" (both NaN comparisons are False), contradicting the claim. -/
theorem C3_zero_population_dsi (df : List DemoRow) (district : String) (state : Option String)
    (hne : dpFilter df district state ≠ [])
    (hzero : dpTotalPop (dpFilter df district state) = 0) :
    dp_calculate_dsi (some df) district state = DsiResult.ok district state 0 "low" 0 1 0
    ∧ genData_district_summary 0 0 = (none, none, "critical") := by
  constructor
  · have hV : dpVolume (dpFilter df district state) = 0 := by
      unfold dpTotalPop at hzero
      unfold dpVolume
      omega
    rcases hrows : dpFilter df district state with _ | ⟨r0, rest⟩
    · exact absurd hrows hne
    · rw [hrows] at hV hzero
      simp only [dp_calculate_dsi, hrows, List.isEmpty_cons, if_false, Bool.false_eq_true]
      rw [hV, hzero]
      norm_num [dpDsi, dpDsiRaw, dpWa, dpCapacity, dpStatus, pyRound2, pyRound1,
        pyInt, roundHE, min_def, max_def]
  · norm_num [genData_district_summary, genData_adult_percent, calculate_dsiNaN,
      get_dsi_statusNaN]

/-- C3 witness: a one-row table for district D of state S whose two age
counts are both zero. -/
theorem C3_zero_population_dsi_witness :
    dp_calculate_dsi (some [⟨"S", "D", 0, 0⟩]) "D" (some "S")
      = DsiResult.ok "D" (some "S") 0 "low" 0 1 0
    ∧ genData_district_summary 0 0 = (none, none, "critical") :=
  C3_zero_population_dsi [⟨"S", "D", 0, 0⟩] "D" (some "S") (by decide) (by decide)

/-- C9: with no demographic table loaded calculate_dsi returns the
two-key dict {dsi: 0, status: no_data}; for a district filtered to no
rows it returns {dsi: 0, status: not_found}; neither status belongs to
the documented set {low, medium, critical}, and the err shape of
DsiResult carries no volume, capacity or adult_percent field. -/
theorem C9_not_found_and_no_data (df : List DemoRow) (district : String) (state : Option String)
    (h : dpFilter df district state = []) :
    dp_calculate_dsi (some df) district state = DsiResult.err 0 "not_found"
    ∧ dp_calculate_dsi none district state = DsiResult.err 0 "no_data"
    ∧ List.contains ["low", "medium", "critical"] "not_found" = false
    ∧ List.contains ["low", "medium", "critical"] "no_data" = false := by
  refine ⟨?_, rfl, by decide, by decide⟩
  simp only [dp_calculate_dsi, h, List.isEmpty_nil, if_true]

/-- C9 witness: the empty table and district X with no state filter. -/
theorem C9_not_found_and_no_data_witness :
    dp_calculate_dsi (some []) "X" none = DsiResult.err 0 "not_found"
    ∧ dp_calculate_dsi none "X" none = DsiResult.err 0 "no_data"
    ∧ List.contains ["low", "medium", "critical"] "not_found" = false
    ∧ List.contains ["low", "medium", "critical"] "no_data" = false :=
  C9_not_found_and_no_data [] "X" none rfl

/-! ## data_processor.py: get_top_stressed_districts -/

/-- Lexicographic order on (state, district), the ascending key order in
which pandas groupby(sort=True) emits the aggregated groups. -/
def keyLe (a b : String × String) : Prop := a.1 < b.1 ∨ (a.1 = b.1 ∧ a.2 ≤ b.2)

instance : DecidableRel keyLe := fun a b => by
  unfold keyLe
  infer_instance

/-- The distinct (state, district) keys of the demographic table in
groupby order. -/
def aggKeys (df : List DemoRow) : List (String × String) :=
  List.insertionSort keyLe ((df.map (fun r => (r.state, r.district))).dedup)

/-- The dsi key of a calculate_dsi result dict (present in both shapes). -/
def dsiOf : DsiResult → ℚ
  | .err d _ => d
  | .ok _ _ d _ _ _ _ => d

/-- Descending-dsi comparison used by the final sort. -/
def dsiGe (a b : DsiResult) : Prop := dsiOf b ≤ dsiOf a

instance : DecidableRel dsiGe := fun a b => by
  unfold dsiGe
  infer_instance

instance : IsTotal DsiResult dsiGe := ⟨fun a b => le_total (dsiOf b) (dsiOf a)⟩

instance : IsTrans DsiResult dsiGe := ⟨fun _ _ _ h1 h2 => le_trans h2 h1⟩

/-- Embeds SankhyaDataProcessor.get_top_stressed_districts: DSI is
evaluated only for the head(100) of the aggregation, results with dsi 0
are dropped (the source keeps dsi > 0), the rest are sorted by dsi
descending and cut to the limit. -/
def get_top_stressed_districts (df : Option (List DemoRow)) (limit : ℕ) : List DsiResult :=
  match df with
  | none => []
  | some df =>
    let keys := (aggKeys df).take 100
    let results := (keys.map (fun k => dp_calculate_dsi (some df) k.2 (some k.1))).filter
      (fun r => decide (0 < dsiOf r))
    (List.insertionSort dsiGe results).take limit

/-- C10: get_top_stressed_districts returns at most limit results, sorted
by dsi descending; every result has dsi > 0 (districts whose dsi equals 0
are excluded) and comes from one of the first 100 (state, district)
groups of the aggregation in groupby order — a district outside those
first 100 groups never appears. -/
theorem C10_top_stressed_districts (df : List DemoRow) (limit : ℕ) :
    (get_top_stressed_districts (some df) limit).length ≤ limit
    ∧ List.Sorted dsiGe (get_top_stressed_districts (some df) limit)
    ∧ ∀ r ∈ get_top_stressed_districts (some df) limit,
        0 < dsiOf r
        ∧ ∃ k ∈ (aggKeys df).take 100, r = dp_calculate_dsi (some df) k.2 (some k.1) := by
  refine ⟨?_, ?_, ?_⟩
  · simp only [get_top_stressed_districts]
    exact List.length_take_le _ _
  · simp only [get_top_stressed_districts]
    exact List.Pairwise.sublist (List.take_sublist _ _) (List.sorted_insertionSort dsiGe _)
  · intro r hr
    simp only [get_top_stressed_districts] at hr
    have hr2 := List.take_subset _ _ hr
    rw [List.mem_insertionSort, List.mem_filter] at hr2
    obtain ⟨hmap, hpos⟩ := hr2
    refine ⟨of_decide_eq_true hpos, ?_⟩
    rw [List.mem_map] at hmap
    obtain ⟨k, hk, hkr⟩ := hmap
    exact ⟨k, hk, hkr.symm⟩

/-! ## ai_forecaster.py: calculate_blue_zone_dez -/

/-- One merged district row of calculate_blue_zone_dez: demographic sums
plus the bio/enrol group sizes (fillna(0) merged counts). -/
structure ZoneInput where
  state : String
  district : String
  demo_age_5_17 : ℕ
  demo_age_17_plus : ℕ
  bio_count : ℕ
  enrol_count : ℕ
deriving DecidableEq

/-- adult_ratio = demo_age_17_ / total.clip(lower=1). -/
def adultRatio (r : ZoneInput) : ℚ :=
  (r.demo_age_17_plus : ℚ) / max (((r.demo_age_5_17 + r.demo_age_17_plus : ℕ)) : ℚ) 1

/-- activity_per_capita = (bio_count + enrol_count) / total.clip(lower=1). -/
def activityPerCapita (r : ZoneInput) : ℚ :=
  ((r.bio_count + r.enrol_count : ℕ) : ℚ)
    / max (((r.demo_age_5_17 + r.demo_age_17_plus : ℕ)) : ℚ) 1

/-- pandas Series.quantile with the default linear interpolation: with
the values sorted ascending and h = (n - 1) * q, the result is
v[floor h] + (h - floor h) * (v[floor h + 1] - v[floor h]). -/
def pandasQuantile (q : ℚ) (l : List ℚ) : ℚ :=
  let s := List.insertionSort (fun a b : ℚ => a ≤ b) l
  match s with
  | [] => 0
  | _ :: _ =>
    let h : ℚ := ((s.length - 1 : ℕ) : ℚ) * q
    let i : ℕ := (⌊h⌋).toNat
    let lo := s.getD i 0
    let hi := s.getD (i + 1) lo
    lo + (h - ((⌊h⌋ : ℤ) : ℚ)) * (hi - lo)

/-- A zone dict: the merged columns the callers read plus zone_type and
zone_reason. -/
structure ZoneRecord where
  state : String
  district : String
  adult_ratio : ℚ
  activity_per_capita : ℚ
  zone_type : String
  zone_reason : String
deriving DecidableEq

def mkBlueZone (r : ZoneInput) : ZoneRecord :=
  ⟨r.state, r.district, adultRatio r, activityPerCapita r,
    "blue_zone", "High senior population (60+ age group)"⟩

def mkDezZone (r : ZoneInput) : ZoneRecord :=
  ⟨r.state, r.district, adultRatio r, activityPerCapita r,
    "dez", "Low digital enrollment activity"⟩

/-- senior_threshold = district adult_ratio quantile(0.80). -/
def blueThreshold (l : List ZoneInput) : ℚ := pandasQuantile (4/5) (l.map adultRatio)

/-- activity_threshold = activity_per_capita quantile(0.20). -/
def dezThreshold (l : List ZoneInput) : ℚ := pandasQuantile (1/5) (l.map activityPerCapita)

/-- blue_zones = rows with adult_ratio >= senior_threshold (inclusive). -/
def blueZonesOf (l : List ZoneInput) : List ZoneRecord :=
  (l.filter (fun r => decide (blueThreshold l ≤ adultRatio r))).map mkBlueZone

/-- dez_zones = rows with activity_per_capita <= activity_threshold
(inclusive). -/
def dezZonesOf (l : List ZoneInput) : List ZoneRecord :=
  (l.filter (fun r => decide (activityPerCapita r ≤ dezThreshold l))).map mkDezZone

def zoneKey (z : ZoneRecord) : String × String := (z.state, z.district)

/-- pandas drop_duplicates(subset=[state, district]) with the default
keep=first: the first record of each key survives, in order. -/
def dedupByKey : List ZoneRecord → List ZoneRecord
  | [] => []
  | x :: xs => x :: dedupByKey (xs.filter (fun y => decide (zoneKey y ≠ zoneKey x)))
termination_by l => l.length
decreasing_by
  simp only [List.length_cons]
  exact Nat.lt_succ_of_le (List.length_filter_le _ _)

/-- Embeds calculate_blue_zone_dez of src/backend/ai_forecaster.py:
pd.concat([blue_zones, dez_zones]) deduplicated on (state, district)
keeping the first (blue-zone) occurrence. -/
def calculate_blue_zone_dez (l : List ZoneInput) : List ZoneRecord :=
  dedupByKey (blueZonesOf l ++ dezZonesOf l)

theorem dedupByKey_filter (l : List ZoneRecord) (k : String × String) :
    (dedupByKey l).filter (fun y => decide (zoneKey y = k))
      = (l.filter (fun y => decide (zoneKey y = k))).take 1 := by
  induction l using dedupByKey.induct with
  | case1 => simp [dedupByKey]
  | case2 x xs ih =>
    rw [dedupByKey]
    by_cases hk : zoneKey x = k
    · rw [List.filter_cons_of_pos (by simpa using hk),
        List.filter_cons_of_pos (by simpa using hk)]
      rw [ih, List.filter_filter]
      have hnil : xs.filter (fun y =>
          decide (zoneKey y = k) && decide (zoneKey y ≠ zoneKey x)) = [] := by
        rw [List.filter_eq_nil_iff]
        intro y _
        by_cases hy : zoneKey y = k
        · simp [hy, hk.symm]
        · simp [hy]
      rw [hnil]
      simp
    · rw [List.filter_cons_of_neg (by simpa using hk),
        List.filter_cons_of_neg (by simpa using hk)]
      rw [ih, List.filter_filter]
      congr 1
      apply List.filter_congr
      intro y _
      by_cases hy : zoneKey y = k
      · have hkx : k ≠ zoneKey x := fun hcon => hk hcon.symm
        simp [hy, hkx]
      · simp [hy]

theorem filter_map_key_once (l : List ZoneInput)
    (hnd : (l.map (fun r => (r.state, r.district))).Nodup)
    (p : ZoneInput → Bool) (mk : ZoneInput → ZoneRecord)
    (hmk : ∀ r, zoneKey (mk r) = (r.state, r.district))
    (x : ZoneInput) (hx : x ∈ l) (hpx : p x = true) :
    ((l.filter p).map mk).filter (fun y => decide (zoneKey y = (x.state, x.district)))
      = [mk x] := by
  induction l with
  | nil => cases hx
  | cons y ys ih =>
    rw [List.map_cons, List.nodup_cons] at hnd
    obtain ⟨hynotin, hndtail⟩ := hnd
    rcases List.mem_cons.mp hx with rfl | hxtail
    · rw [List.filter_cons_of_pos hpx, List.map_cons,
        List.filter_cons_of_pos (by simp [hmk])]
      have htail : ((ys.filter p).map mk).filter
          (fun z => decide (zoneKey z = (x.state, x.district))) = [] := by
        rw [List.filter_eq_nil_iff]
        intro z hz
        obtain ⟨r, hr, rfl⟩ := List.mem_map.mp hz
        have hrmem : (r.state, r.district) ∈ ys.map (fun s => (s.state, s.district)) :=
          List.mem_map_of_mem _ (List.mem_of_mem_filter hr)
        have hne : (r.state, r.district) ≠ (x.state, x.district) := by
          intro hcon
          exact hynotin (hcon ▸ hrmem)
        simp only [hmk, decide_eq_true_eq]
        exact hne
      rw [htail]
    · have hkey : (x.state, x.district) ∈ ys.map (fun s => (s.state, s.district)) :=
        List.mem_map_of_mem _ hxtail
      have hyx : (y.state, y.district) ≠ (x.state, x.district) := by
        intro hcon
        exact hynotin (hcon ▸ hkey)
      by_cases hpy : p y = true
      · rw [List.filter_cons_of_pos hpy, List.map_cons,
          List.filter_cons_of_neg (by simp [hmk, hyx])]
        exact ih hndtail hxtail
      · rw [List.filter_cons_of_neg (by simpa using hpy)]
        exact ih hndtail hxtail

/-- C5: over a run whose (state, district) keys are distinct (they are
groupby keys), the blue-zone set holds exactly the rows whose adult_ratio
is at or above the 80th percentile of the full distribution (inclusive),
the DEZ set exactly those whose activity_per_capita is at or below the
20th percentile (inclusive), and a district satisfying both predicates
appears exactly once in the combined deduplicated output, as the
blue_zone record (blue-zone-first). -/
theorem C5_zone_classification (l : List ZoneInput)
    (hnd : (l.map (fun r => (r.state, r.district))).Nodup)
    (x : ZoneInput) (hx : x ∈ l) :
    (mkBlueZone x ∈ blueZonesOf l ↔ blueThreshold l ≤ adultRatio x)
    ∧ (mkDezZone x ∈ dezZonesOf l ↔ activityPerCapita x ≤ dezThreshold l)
    ∧ (blueThreshold l ≤ adultRatio x → activityPerCapita x ≤ dezThreshold l →
        (calculate_blue_zone_dez l).filter
          (fun y => decide (zoneKey y = (x.state, x.district))) = [mkBlueZone x]) := by
  refine ⟨?_, ?_, ?_⟩
  · constructor
    · intro hmem
      obtain ⟨r, hr, hrx⟩ := List.mem_map.mp hmem
      have hthr := of_decide_eq_true (List.mem_filter.mp hr).2
      have : adultRatio r = adultRatio x := congrArg ZoneRecord.adult_ratio hrx
      exact this ▸ hthr
    · intro hthr
      exact List.mem_map_of_mem _ (List.mem_filter.mpr ⟨hx, decide_eq_true hthr⟩)
  · constructor
    · intro hmem
      obtain ⟨r, hr, hrx⟩ := List.mem_map.mp hmem
      have hthr := of_decide_eq_true (List.mem_filter.mp hr).2
      have : activityPerCapita r = activityPerCapita x :=
        congrArg ZoneRecord.activity_per_capita hrx
      exact this ▸ hthr
    · intro hthr
      exact List.mem_map_of_mem _ (List.mem_filter.mpr ⟨hx, decide_eq_true hthr⟩)
  · intro hb _
    unfold calculate_blue_zone_dez
    rw [dedupByKey_filter, List.filter_append]
    have hblue : (blueZonesOf l).filter
        (fun y => decide (zoneKey y = (x.state, x.district))) = [mkBlueZone x] :=
      filter_map_key_once l hnd _ mkBlueZone (fun _ => rfl) x hx (decide_eq_true hb)
    rw [hblue]
    rfl

/-- C5 witness: a two-district run where district X of state A has
adult_ratio 1 (above the 80th percentile 0.8) and activity 0 (below the
20th percentile 0.2), so it qualifies for both zones and keeps the
blue_zone record. -/
theorem C5_zone_classification_witness :
    (calculate_blue_zone_dez
        [⟨"A", "X", 0, 10, 0, 0⟩, ⟨"B", "Y", 10, 0, 5, 5⟩]).filter
      (fun y => decide (zoneKey y = ("A", "X")))
      = [mkBlueZone ⟨"A", "X", 0, 10, 0, 0⟩] := by
  have h := C5_zone_classification
    [⟨"A", "X", 0, 10, 0, 0⟩, ⟨"B", "Y", 10, 0, 5, 5⟩]
    (by decide) ⟨"A", "X", 0, 10, 0, 0⟩ (by decide)
  refine h.2.2 ?_ ?_
  · norm_num [blueThreshold, pandasQuantile, adultRatio, activityPerCapita,
      List.insertionSort, List.orderedInsert, min_def, max_def]
  · norm_num [dezThreshold, pandasQuantile, adultRatio, activityPerCapita,
      List.insertionSort, List.orderedInsert, min_def, max_def]

/-! ## generate_data.py: generate_anomalies -/

/-- One merged row of generate_anomalies: biometric total_updates joined
with demographic total_population per (state, district). -/
structure MergedRow where
  state : String
  district : String
  total_updates : ℕ
  total_population : ℕ
deriving DecidableEq

structure AnomalyRecord where
  state : String
  district : String
  deviation : ℚ
  type : String
  severity : String
deriving DecidableEq

/-- expected = total_population * 0.05. -/
def anomalyExpected (r : MergedRow) : ℚ := (r.total_population : ℚ) * (1/20)

/-- deviation = round((total_updates - expected) / expected.clip(lower=1)
* 100, 1). -/
def anomalyDeviation (r : MergedRow) : ℚ :=
  pyRound1 (((r.total_updates : ℚ) - anomalyExpected r) / max (anomalyExpected r) 1 * 100)

/-- The dict appended for a row that passes the 40-percent filter:
type surge when the deviation is positive, drop otherwise; severity
critical when the absolute deviation exceeds 80 (not 60), warning
otherwise. -/
def mkAnomaly (r : MergedRow) : AnomalyRecord :=
  ⟨r.state, r.district, anomalyDeviation r,
    if 0 < anomalyDeviation r then "surge" else "drop",
    if 80 < |anomalyDeviation r| then "critical" else "warning"⟩

/-- Descending comparison on the absolute deviation. -/
def anomalyGe (a b : AnomalyRecord) : Prop := |b.deviation| ≤ |a.deviation|

instance : DecidableRel anomalyGe := fun a b => by
  unfold anomalyGe
  infer_instance

instance : IsTotal AnomalyRecord anomalyGe := ⟨fun a b => le_total |b.deviation| |a.deviation|⟩

instance : IsTrans AnomalyRecord anomalyGe := ⟨fun _ _ _ h1 h2 => le_trans h2 h1⟩

/-- Embeds generate_anomalies of src/backend/generate_data.py: emit a
record when |deviation| > 40, sort by absolute deviation descending,
return the first 20. -/
def generate_anomalies (merged : List MergedRow) : List AnomalyRecord :=
  let anomalies := (merged.filter (fun r => decide (40 < |anomalyDeviation r|))).map mkAnomaly
  (List.insertionSort anomalyGe anomalies).take 20

/-- C4 counterexample: with expected = 100 (population 2000) and actual =
170 the deviation is 70, whose absolute value exceeds 60, yet the emitted
record has severity warning, not critical — the severity cutoff of
generate_anomalies is 80, not 60. -/
theorem C4_counterexample_severity_cutoff :
    generate_anomalies [⟨"S", "D", 170, 2000⟩]
      = [⟨"S", "D", 70, "surge", "warning"⟩]
    ∧ (60:ℚ) < |(70:ℚ)| ∧ "warning" ≠ "critical" := by
  refine ⟨?_, by norm_num, by decide⟩
  have hdev : anomalyDeviation ⟨"S", "D", 170, 2000⟩ = 70 := by
    norm_num [anomalyDeviation, anomalyExpected, pyRound1, roundHE, max_def]
  norm_num [generate_anomalies, mkAnomaly, hdev, List.insertionSort,
    List.orderedInsert, List.filter]

/-- C4 (amended): generate_anomalies emits a record for a merged row
exactly when its |deviation_pct| exceeds 40 (exactly, whenever at most 20
rows qualify, since the output is cut to 20), with type surge for
positive and drop for negative deviation, severity critical when
|deviation_pct| > 80 (not 60) and warning otherwise, sorted by absolute
deviation descending; expected = 100 with actual = 145 gives deviation 45
and a surge/warning record, actual = 170 (deviation 70) still gives
warning, and actual = 190 (deviation 90) gives critical. -/
theorem C4_amended_anomaly_detector (merged : List MergedRow) :
    List.Sorted anomalyGe (generate_anomalies merged)
    ∧ (∀ a ∈ generate_anomalies merged,
        40 < |a.deviation|
        ∧ (a.type = "surge" ↔ 0 < a.deviation)
        ∧ (a.severity = "critical" ↔ 80 < |a.deviation|)
        ∧ ∃ r ∈ merged, a = mkAnomaly r)
    ∧ (∀ r ∈ merged, 40 < |anomalyDeviation r| →
        (merged.filter (fun s => decide (40 < |anomalyDeviation s|))).length ≤ 20 →
        mkAnomaly r ∈ generate_anomalies merged)
    ∧ generate_anomalies [⟨"S", "D", 145, 2000⟩] = [⟨"S", "D", 45, "surge", "warning"⟩]
    ∧ generate_anomalies [⟨"S", "D", 190, 2000⟩] = [⟨"S", "D", 90, "surge", "critical"⟩] := by
  refine ⟨?_, ?_, ?_, ?_, ?_⟩
  · exact List.Pairwise.sublist (List.take_sublist _ _)
      (List.sorted_insertionSort anomalyGe _)
  · intro a ha
    have ha2 := List.take_subset _ _ ha
    rw [List.mem_insertionSort, List.mem_map] at ha2
    obtain ⟨r, hr, rfl⟩ := ha2
    have hdev := of_decide_eq_true (List.mem_filter.mp hr).2
    have hrm := List.mem_of_mem_filter hr
    refine ⟨hdev, ?_, ?_, r, hrm, rfl⟩
    · unfold mkAnomaly
      by_cases hpos : 0 < anomalyDeviation r
      · simp [hpos]
      · simp [hpos]
    · unfold mkAnomaly
      by_cases hcrit : 80 < |anomalyDeviation r|
      · simp [hcrit]
      · simp [hcrit]
  · intro r hr hdev hlen
    have hmemf : r ∈ merged.filter (fun s => decide (40 < |anomalyDeviation s|)) :=
      List.mem_filter.mpr ⟨hr, decide_eq_true hdev⟩
    have hmem : mkAnomaly r ∈ (merged.filter
        (fun s => decide (40 < |anomalyDeviation s|))).map mkAnomaly :=
      List.mem_map_of_mem _ hmemf
    have hlen2 : (List.insertionSort anomalyGe ((merged.filter
        (fun s => decide (40 < |anomalyDeviation s|))).map mkAnomaly)).length ≤ 20 := by
      rw [(List.perm_insertionSort anomalyGe _).length_eq, List.length_map]
      exact hlen
    unfold generate_anomalies
    rw [List.take_of_length_le hlen2, List.mem_insertionSort]
    exact hmem
  · have hdev : anomalyDeviation ⟨"S", "D", 145, 2000⟩ = 45 := by
      norm_num [anomalyDeviation, anomalyExpected, pyRound1, roundHE, max_def]
    norm_num [generate_anomalies, mkAnomaly, hdev, List.insertionSort,
      List.orderedInsert, List.filter]
  · have hdev : anomalyDeviation ⟨"S", "D", 190, 2000⟩ = 90 := by
      norm_num [anomalyDeviation, anomalyExpected, pyRound1, roundHE, max_def]
    norm_num [generate_anomalies, mkAnomaly, hdev, List.insertionSort,
      List.orderedInsert, List.filter]

/-! ## ai_forecaster.py: generate_7day_forecast -/

/-- The fixed day-of-week factor table (0 = Monday .. 6 = Sunday, the
Python weekday numbering).  Arguments are always reduced mod 7. -/
def dowFactor (d : ℕ) : ℚ :=
  if d = 0 then 23/20 else if d = 1 then 11/10 else if d = 2 then 21/20
  else if d = 3 then 1 else if d = 4 then 19/20 else if d = 5 then 7/10 else 1/2

/-- The seasonal factor of the start month (applied once, from
today.month, to all seven points). -/
def seasonalFactor (m : ℕ) : ℚ :=
  if m = 1 ∨ m = 3 ∨ m = 4 then 5/4
  else if m = 10 ∨ m = 11 ∨ m = 12 then 23/20
  else if m = 6 ∨ m = 7 ∨ m = 8 then 17/20
  else 1

structure ForecastPoint where
  dayOffset : ℕ
  weekday : ℕ
  predicted : ℤ
  confidence : ℚ
  low_estimate : ℤ
  high_estimate : ℤ
deriving DecidableEq

/-- predicted_demand before truncation: base * dow * seasonal * trend *
variance, where vf day stands for the seeded numpy uniform(0.95, 1.05)
draw of that day. -/
def forecastPredicted (base : ℚ) (startDow month : ℕ) (vf : ℕ → ℚ) (day : ℕ) : ℚ :=
  base * dowFactor ((startDow + day) % 7) * seasonalFactor month
    * (1 + (day : ℚ) * (1/200)) * vf day

/-- Embeds generate_7day_forecast of src/backend/ai_forecaster.py, with
the date handled as (weekday of today, month of today) and the
pseudo-random variance abstracted as vf. -/
def generate_7day_forecast (base : ℚ) (startDow month : ℕ) (vf : ℕ → ℚ) :
    List ForecastPoint :=
  (List.range 7).map (fun day =>
    { dayOffset := day
      weekday := (startDow + day) % 7
      predicted := pyInt (forecastPredicted base startDow month vf day)
      confidence := pyRound2 (max (13/20) (19/20 - (day : ℚ) * (1/25)))
      low_estimate := pyInt (forecastPredicted base startDow month vf day * (17/20))
      high_estimate := pyInt (forecastPredicted base startDow month vf day * (23/20)) })

theorem dowFactor_pos (d : ℕ) : 0 < dowFactor d := by
  unfold dowFactor
  split_ifs <;> norm_num

theorem seasonalFactor_pos (m : ℕ) : 0 < seasonalFactor m := by
  unfold seasonalFactor
  split_ifs <;> norm_num

theorem forecastPredicted_nonneg {base : ℚ} {startDow month : ℕ} {vf : ℕ → ℚ}
    (hbase : 0 ≤ base) (hvf : ∀ d, 19/20 ≤ vf d) (day : ℕ) :
    0 ≤ forecastPredicted base startDow month vf day := by
  have h1 := dowFactor_pos ((startDow + day) % 7)
  have h2 := seasonalFactor_pos month
  have h3 : (0:ℚ) < 1 + (day : ℚ) * (1/200) := by positivity
  have h4 : (0:ℚ) < vf day := lt_of_lt_of_le (by norm_num) (hvf day)
  unfold forecastPredicted
  positivity

theorem confidence_round_fixed (day : ℕ) (h : day < 7) :
    pyRound2 (max (13/20) (19/20 - (day : ℚ) * (1/25)))
      = max (13/20) (19/20 - (day : ℚ) * (1/25)) := by
  interval_cases day <;> norm_num [pyRound2, roundHE, max_def]

/-- C6: the 7-day forecast has exactly 7 points, the i-th carrying day
offset i and the cyclically advanced weekday; each point's predicted
value is the truncation of baseline times the day-of-week factor, the
seasonal factor of the start month, the trend 1 + 0.005 * day, and a
variance factor within [0.95, 1.05]; confidence is exactly
max(0.65, 0.95 - 0.04 * day); low and high estimates truncate predicted
* 0.85 and predicted * 1.15 and bracket the truncated prediction; and the
two multiplier tables hold the documented constants. -/
theorem C6_forecast_seven_points (base : ℚ) (startDow month : ℕ) (vf : ℕ → ℚ)
    (hbase : 0 ≤ base) (hvf : ∀ d, 19/20 ≤ vf d ∧ vf d ≤ 21/20) :
    (generate_7day_forecast base startDow month vf).length = 7
    ∧ (∀ i, (hi : i < (generate_7day_forecast base startDow month vf).length) →
        ((generate_7day_forecast base startDow month vf).get ⟨i, hi⟩).dayOffset = i
        ∧ ((generate_7day_forecast base startDow month vf).get ⟨i, hi⟩).weekday
            = (startDow + i) % 7)
    ∧ (∀ pt ∈ generate_7day_forecast base startDow month vf, ∃ day, day < 7
        ∧ (∃ v, 19/20 ≤ v ∧ v ≤ 21/20
            ∧ pt.predicted = pyInt (base * dowFactor ((startDow + day) % 7)
                * seasonalFactor month * (1 + (day : ℚ) * (1/200)) * v))
        ∧ pt.confidence = max (13/20) (19/20 - (day : ℚ) * (1/25))
        ∧ pt.low_estimate = pyInt (forecastPredicted base startDow month vf day * (17/20))
        ∧ pt.high_estimate = pyInt (forecastPredicted base startDow month vf day * (23/20))
        ∧ pt.low_estimate ≤ pt.predicted ∧ pt.predicted ≤ pt.high_estimate)
    ∧ (dowFactor 0 = 23/20 ∧ dowFactor 1 = 11/10 ∧ dowFactor 2 = 21/20 ∧ dowFactor 3 = 1
        ∧ dowFactor 4 = 19/20 ∧ dowFactor 5 = 7/10 ∧ dowFactor 6 = 1/2)
    ∧ (seasonalFactor 1 = 5/4 ∧ seasonalFactor 3 = 5/4 ∧ seasonalFactor 4 = 5/4
        ∧ seasonalFactor 10 = 23/20 ∧ seasonalFactor 11 = 23/20 ∧ seasonalFactor 12 = 23/20
        ∧ seasonalFactor 6 = 17/20 ∧ seasonalFactor 7 = 17/20 ∧ seasonalFactor 8 = 17/20
        ∧ seasonalFactor 2 = 1 ∧ seasonalFactor 5 = 1 ∧ seasonalFactor 9 = 1) := by
  refine ⟨?_, ?_, ?_, ?_, ?_⟩
  · simp [generate_7day_forecast]
  · intro i hi
    constructor
    · simp [generate_7day_forecast]
    · simp [generate_7day_forecast]
  · intro pt hpt
    simp only [generate_7day_forecast, List.mem_map, List.mem_range] at hpt
    obtain ⟨day, hday, rfl⟩ := hpt
    have hp0 : 0 ≤ forecastPredicted base startDow month vf day :=
      forecastPredicted_nonneg hbase (fun d => (hvf d).1) day
    refine ⟨day, hday, ⟨vf day, (hvf day).1, (hvf day).2, rfl⟩,
      confidence_round_fixed day hday, rfl, rfl, ?_, ?_⟩
    · exact pyInt_mono (by positivity) (by nlinarith)
    · exact pyInt_mono hp0 (by nlinarith)
  · refine ⟨?_, ?_, ?_, ?_, ?_, ?_, ?_⟩ <;> norm_num [dowFactor]
  · refine ⟨?_, ?_, ?_, ?_, ?_, ?_, ?_, ?_, ?_, ?_, ?_, ?_⟩ <;> norm_num [seasonalFactor]

/-- C6 witness: baseline 1000 starting on a Monday in January with unit
variance draws. -/
theorem C6_forecast_seven_points_witness :
    (generate_7day_forecast 1000 0 1 (fun _ => 1)).length = 7 :=
  (C6_forecast_seven_points 1000 0 1 (fun _ => 1) (by norm_num)
    (fun _ => ⟨by norm_num, by norm_num⟩)).1

/-! ## generate_data.py: generate_migration_corridors -/

structure Corridor where
  origin : String
  destination : String
  change_percent : ℤ
  volume : ℤ
deriving DecidableEq

/-- The static hand-curated corridor table of generate_migration_corridors. -/
def migration_pairs : List (String × String × ℤ) :=
  [("Bihar", "Delhi", 42), ("Uttar Pradesh", "Maharashtra", 28),
   ("Rajasthan", "Gujarat", 15), ("Madhya Pradesh", "Karnataka", 8),
   ("Odisha", "Tamil Nadu", 5), ("West Bengal", "Kerala", 3),
   ("Jharkhand", "Haryana", 12)]

/-- state_volumes.get(origin): lookup in the per-state total_updates
mapping. -/
def lookupVolume (sv : List (String × ℚ)) (s : String) : Option ℚ :=
  (sv.find? (fun p => decide (p.1 = s))).map (fun p => p.2)

/-- Embeds generate_migration_corridors of src/backend/generate_data.py:
volume = int(state_volumes.get(origin, 50000) * 0.1), iterating the
static table in order. -/
def generate_migration_corridors (sv : List (String × ℚ)) : List Corridor :=
  migration_pairs.map (fun t =>
    { origin := t.1, destination := t.2.1, change_percent := t.2.2,
      volume := pyInt ((lookupVolume sv t.1).getD 50000 * (1/10)) })

/-- C7 counterexample: with Bihar live activity 12345 the first corridor
volume is int(12345 * 0.1) = 1234, which is not 12345 * 0.1 = 1234.5 —
the volume is the truncation, not the product itself.  Absent origins all
fall back to int(50000 * 0.1) = 5000. -/
theorem C7_counterexample_truncated_volume :
    (generate_migration_corridors [("Bihar", 12345)]).map Corridor.volume
      = [1234, 5000, 5000, 5000, 5000, 5000, 5000]
    ∧ ((1234 : ℚ) ≠ 12345 * (1/10)) := by
  constructor
  · have hB : lookupVolume [("Bihar", (12345:ℚ))] "Bihar" = some 12345 := rfl
    have hUP : lookupVolume [("Bihar", (12345:ℚ))] "Uttar Pradesh" = none := rfl
    have hRJ : lookupVolume [("Bihar", (12345:ℚ))] "Rajasthan" = none := rfl
    have hMP : lookupVolume [("Bihar", (12345:ℚ))] "Madhya Pradesh" = none := rfl
    have hOD : lookupVolume [("Bihar", (12345:ℚ))] "Odisha" = none := rfl
    have hWB : lookupVolume [("Bihar", (12345:ℚ))] "West Bengal" = none := rfl
    have hJH : lookupVolume [("Bihar", (12345:ℚ))] "Jharkhand" = none := rfl
    simp only [generate_migration_corridors, migration_pairs, List.map_cons,
      List.map_nil, hB, hUP, hRJ, hMP, hOD, hWB, hJH,
      Option.getD_some, Option.getD_none]
    norm_num [pyInt]
  · norm_num

/-- C7 (amended): generate_migration_corridors preserves the static
triple order with no re-sorting; for an origin present in the live state
aggregates the volume is the integer truncation of that state's total
activity times the fixed fraction 0.1, and for an absent origin it falls
back to int(50000 * 0.1) = 5000 without raising. -/
theorem C7_amended_corridor_volumes (sv : List (String × ℚ)) :
    (generate_migration_corridors sv).map
        (fun c => (c.origin, c.destination, c.change_percent)) = migration_pairs
    ∧ ∀ c ∈ generate_migration_corridors sv,
        (∀ v, lookupVolume sv c.origin = some v → c.volume = pyInt (v * (1/10)))
        ∧ (lookupVolume sv c.origin = none → c.volume = 5000) := by
  constructor
  · rfl
  · intro c hc
    simp only [generate_migration_corridors, List.mem_map] at hc
    obtain ⟨t, _, rfl⟩ := hc
    constructor
    · intro v hv
      simp only at hv
      simp only [hv, Option.getD_some]
    · intro hv
      simp only at hv
      simp only [hv, Option.getD_none]
      norm_num [pyInt]

/-! ## Loaders: data_processor None guards and the unguarded
ai_forecaster.load_real_data -/

structure BioRow where
  state : String
  district : String
  bio_age_5_17 : ℕ
  bio_age_17_plus : ℕ
deriving DecidableEq

structure EnrolRow where
  state : String
  district : String
  age_0_5 : ℕ
  age_5_17 : ℕ
  age_18_greater : ℕ
deriving DecidableEq

/-- groupby(state) sum of bio_age_17_, keys in ascending order. -/
def dpStateUpdates (df : List BioRow) : List (String × ℕ) :=
  (List.insertionSort (fun a b : String => a ≤ b) (df.map BioRow.state).dedup).map
    (fun s => (s, ((df.filter (fun r => decide (r.state = s))).map BioRow.bio_age_17_plus).sum))

/-- Descending order on the summed updates, for sort_values(ascending=False). -/
def stateUpdatesGe (a b : String × ℕ) : Prop := b.2 ≤ a.2

instance : DecidableRel stateUpdatesGe := fun a b => by
  unfold stateUpdatesGe
  infer_instance

def lookupUpdates (sa : List (String × ℕ)) (s : String) : Option ℕ :=
  (sa.find? (fun p => decide (p.1 = s))).map (fun p => p.2)

/-- The static pair table of SankhyaDataProcessor.get_migration_flows
(its change percentages differ from the generate_data table). -/
def dp_migration_pairs : List (String × String × ℤ) :=
  [("Bihar", "Delhi", 42), ("Uttar Pradesh", "Maharashtra", 28),
   ("Rajasthan", "Gujarat", 12), ("Madhya Pradesh", "Karnataka", 8),
   ("Odisha", "Tamil Nadu", 5)]

/-- Embeds SankhyaDataProcessor.get_migration_flows: [] when no
biometric table is loaded; otherwise corridors for pairs touching a
top-10 state, volume from the state mapping with fallback 100000, cut to
5. -/
def dp_get_migration_flows (df : Option (List BioRow)) : List Corridor :=
  match df with
  | none => []
  | some df =>
    let sa := List.insertionSort stateUpdatesGe (dpStateUpdates df)
    let top := (sa.take 10).map (fun p => p.1)
    let cs := (dp_migration_pairs.filter
        (fun t => top.contains t.1 || top.contains t.2.1)).map
      (fun t => Corridor.mk t.1 t.2.1 t.2.2
        (match lookupUpdates sa t.1 with
          | some v => (v : ℤ)
          | none => 100000))
    cs.take 5

/-- Embeds load_real_data of src/backend/ai_forecaster.py: three bare
pd.read_csv calls with no existence check and no try block, so a missing
file propagates FileNotFoundError instead of degrading to an empty
dataset. -/
def ai_load_real_data (demo : Option (List DemoRow)) (bio : Option (List BioRow))
    (enrol : Option (List EnrolRow)) :
    Except String (List DemoRow × List BioRow × List EnrolRow) :=
  match demo with
  | none => .error "FileNotFoundError: master_demographic_data.csv"
  | some d =>
    match bio with
    | none => .error "FileNotFoundError: master_biometric_data.csv"
    | some b =>
      match enrol with
      | none => .error "FileNotFoundError: master_enrolment_data.csv"
      | some e => .ok (d, b, e)

/-- C8: the data_processor views guard a table that failed to load and
return empty collections (or the empty-result no_data dict) — but
ai_forecaster.load_real_data has no such guard: with any one input file
missing it raises (models as an error result), which aborts the whole
run_ai_forecast pipeline rather than only that dataset, contradicting
the claim. -/
theorem C8_loader_failure_views :
    dp_get_migration_flows none = []
    ∧ get_top_stressed_districts none 20 = []
    ∧ dp_calculate_dsi none "D" none = DsiResult.err 0 "no_data"
    ∧ (ai_load_real_data none (some []) (some [])).isOk = false
    ∧ (ai_load_real_data (some []) none (some [])).isOk = false
    ∧ (ai_load_real_data (some []) (some []) none).isOk = false :=
  ⟨rfl, rfl, rfl, rfl, rfl, rfl⟩
